import Mathlib

/-!
Verification of the portfolio-api contact-form core logic: the spam scorer
(`calculateSpamScore`) and the submission limiter (`checkSubmissionLimit`),
shallowly embedded from the JavaScript source.

The repository contains several variants of the same modules; variants are
suffixed here:
  * `_simple`   — `src/src/models/Contact.js`, first variant (lines 1-114)
  * `_enhanced` — `src/src/models/Contact.js`, second variant (lines 114-386)
  * `_part006`  — `src/unnamed/part_006`

JavaScript strings are modelled as lists of UTF-16 code units (`List Nat`).
Floating-point ratio comparisons are modelled exactly: the only divisions
performed by the source are `capitalCount / length` with
`capitalCount ≤ length`, so the result is either a finite non-negative
rational or (for `0 / 0`) NaN; comparisons against literal thresholds are
done by cross-multiplication.
-/

/-- A JavaScript string: a list of UTF-16 code units. -/
abbrev JStr := List Nat

/-- Convert a Lean string literal to the code-unit model (ASCII inputs only are used). -/
def strToJ (s : String) : JStr := s.data.map Char.toNat

/-- `String.prototype.toLowerCase` on one code unit (ASCII range, which is all the source uses). -/
def jsToLowerChar (n : Nat) : Nat := if 65 ≤ n ∧ n ≤ 90 then n + 32 else n

/-- `String.prototype.toUpperCase` on one code unit (ASCII range). -/
def jsToUpperChar (n : Nat) : Nat := if 97 ≤ n ∧ n ≤ 122 then n - 32 else n

/-- `toLowerCase` on a whole string. -/
def jsToLower (s : JStr) : JStr := s.map jsToLowerChar

/-- `toUpperCase` on a whole string. -/
def jsToUpper (s : JStr) : JStr := s.map jsToUpperChar

/-- Whether `pat` is a prefix of `s` (helper for `String.prototype.includes`). -/
def startsWith : JStr → JStr → Bool
  | _, [] => true
  | [], _ :: _ => false
  | c :: s, p :: ps => c == p && startsWith s ps

/-- `String.prototype.includes`: `jsIncludes s pat` is true iff `pat` occurs in `s`. -/
def jsIncludes : JStr → JStr → Bool
  | [], pat => startsWith [] pat
  | c :: rest, pat => startsWith (c :: rest) pat || jsIncludes rest pat

/-- The `\s` character class of JavaScript regular expressions. -/
def jsIsSpace (n : Nat) : Bool :=
  n == 32 || n == 9 || n == 10 || n == 11 || n == 12 || n == 13 ||
  n == 160 || n == 5760 || (8192 ≤ n && n ≤ 8202) || n == 8232 ||
  n == 8233 || n == 8239 || n == 8287 || n == 12288 || n == 65279

/-- Number of code units matched by `/[A-Z]/g` (also the length of
`message.replace(/[^A-Z]/g, '')`). -/
def capitalCount (s : JStr) : Nat := s.countP (fun c => decide (65 ≤ c) && decide (c ≤ 90))

/-- Result of a JavaScript division of two non-negative counts: NaN for `0/0`,
otherwise an exact ratio `num/den`. (The source never divides a positive
numerator by zero, since the numerator counts characters of the denominator
string; the `nan` constructor covers the `0/0` case.) -/
inductive JRatio where
  | nan : JRatio
  | ratio : Nat → Nat → JRatio
deriving DecidableEq

/-- `capitalRatio` as computed by the unguarded variants:
`(message.match(/[A-Z]/g) || []).length / message.length`.
For the empty message this is `0/0`, i.e. NaN. -/
def capRatioOf (msg : JStr) : JRatio :=
  if msg.length = 0 then JRatio.nan else JRatio.ratio (capitalCount msg) msg.length

/-- `capitalRatio` as computed by the `_enhanced` variant, which guards the
denominator: `... / Math.max(message.length, 1)`. -/
def capRatioGuarded (msg : JStr) : JRatio :=
  JRatio.ratio (capitalCount msg) (max msg.length 1)

/-- `r > p/q` with JavaScript comparison semantics: any comparison with NaN
is false; finite ratios are compared exactly by cross-multiplication. -/
def ratioGt : JRatio → Nat → Nat → Bool
  | JRatio.nan, _, _ => false
  | JRatio.ratio a b, p, q => decide (p * b < a * q)

/-- Whether a `JRatio` is a (finite) zero ratio. -/
def isZeroRatio : JRatio → Bool
  | JRatio.ratio 0 _ => true
  | _ => false

/-- Length of the maximal run of non-`\s` code units at the head of the string
(the extent of a greedy `[^\s]+` match). -/
def nonspaceRunLen : JStr → Nat
  | [] => 0
  | c :: rest => if jsIsSpace c then 0 else nonspaceRunLen rest + 1

/-- Literal `https://`. -/
def httpsLit : JStr := strToJ "https://"

/-- Literal `http://`. -/
def httpLit : JStr := strToJ "http://"

/-- Fuel-driven scan counting non-overlapping matches of `/https?:\/\/[^\s]+/g`:
at each position, match the literal scheme followed by a non-empty greedy run
of non-space characters, else advance one code unit. The fuel is an upper
bound on the number of scan steps; `urlCount` supplies the string length,
which suffices because every step consumes at least one code unit. -/
def urlCountFuel : Nat → JStr → Nat
  | 0, _ => 0
  | _ + 1, [] => 0
  | fuel + 1, c :: rest =>
    let s := c :: rest
    let rS := nonspaceRunLen (s.drop 8)
    let rP := nonspaceRunLen (s.drop 7)
    if startsWith s httpsLit && 0 < rS then 1 + urlCountFuel fuel (s.drop (8 + rS))
    else if startsWith s httpLit && 0 < rP then 1 + urlCountFuel fuel (s.drop (7 + rP))
    else urlCountFuel fuel rest

/-- Number of matches of `/https?:\/\/[^\s]+/g` in `msg`. -/
def urlCount (msg : JStr) : Nat := urlCountFuel msg.length msg

/-- A submission record as passed to `calculateSpamScore`:
`{ name, email, subject, message }`. -/
structure ContactData where
  name : JStr
  email : JStr
  subject : JStr
  message : JStr
deriving DecidableEq

/-- The `suspiciousKeywords` list of the `_simple` scorer. -/
def simpleKeywords : List JStr :=
  [strToJ "urgent", strToJ "money", strToJ "free", strToJ "winner",
   strToJ "prize", strToJ "click here"]

/-- `(data.message + ' ' + data.subject).toLowerCase()` of the `_simple` scorer. -/
def combinedTextSimple (d : ContactData) : JStr :=
  jsToLower (d.message ++ [32] ++ d.subject)

/-- Keyword component of the `_simple` scorer: one point per listed keyword
contained in the scanned text (`forEach` + `includes`). -/
def kwCountSimple (t : JStr) : Nat := simpleKeywords.countP (fun k => jsIncludes t k)

/-- Capitalization component of the `_simple` scorer: 2 points when
`capitalRatio > 0.5`. -/
def capScoreSimple (msg : JStr) : Nat := if ratioGt (capRatioOf msg) 1 2 then 2 else 0

/-- `calculateSpamScore` of `src/src/models/Contact.js` (first variant,
lines 95-112): keyword hits + capitalization bonus + `urlCount * 2`,
with no clamp on the result. -/
def calculateSpamScore_simple (d : ContactData) : Nat :=
  kwCountSimple (combinedTextSimple d) + capScoreSimple d.message + urlCount d.message * 2

/-- Length of the run of code units equal to `c` at the head of the string. -/
def runLenFrom (c : Nat) : JStr → Nat
  | [] => 0
  | d :: rest => if d == c then runLenFrom c rest + 1 else 0

/-- Code units that `.` does not match in a JavaScript regex (line terminators). -/
def isLineTerminatorChar (n : Nat) : Bool :=
  n == 10 || n == 13 || n == 8232 || n == 8233

/-- Fuel-driven scan counting matches of `/(.)\1{4,}/g`: a match is a maximal
run of at least five equal non-line-terminator code units, consumed greedily;
otherwise the scan advances one code unit. -/
def repRunsFuel : Nat → JStr → Nat
  | 0, _ => 0
  | _ + 1, [] => 0
  | fuel + 1, c :: rest =>
    let r := runLenFrom c rest
    if !isLineTerminatorChar c && 4 ≤ r then 1 + repRunsFuel fuel (rest.drop r)
    else repRunsFuel fuel rest

/-- Number of matches of `/(.)\1{4,}/g` in `msg`. -/
def repRuns (msg : JStr) : Nat := repRunsFuel msg.length msg

/-- Count of maximal whitespace runs, tracking whether the previous code unit
was whitespace. -/
def wsRunsAux : Bool → JStr → Nat
  | _, [] => 0
  | prev, c :: rest =>
    if jsIsSpace c then (if prev then 0 else 1) + wsRunsAux true rest
    else wsRunsAux false rest

/-- `message.split(/\s+/).length`: the empty string yields one element;
otherwise each maximal whitespace run is a separator, so the element count is
the separator count plus one (leading/trailing runs yield empty elements,
exactly as in JavaScript). -/
def splitWsCount (msg : JStr) : Nat :=
  if msg.isEmpty then 1 else wsRunsAux false msg + 1

/-- Code units before the first occurrence of `sep` (the whole string if
`sep` does not occur), i.e. `s.split(sep)[0]`. -/
def takeUntil (sep : Nat) : JStr → JStr
  | [] => []
  | c :: rest => if c == sep then [] else c :: takeUntil sep rest

/-- `email.split('@')[0]`. -/
def localPartOf (email : JStr) : JStr := takeUntil 64 email

/-- `/^\d+$/.test(s)`: non-empty and all decimal digits. -/
def isAllDigits (s : JStr) : Bool :=
  !s.isEmpty && s.all (fun c => decide (48 ≤ c) && decide (c ≤ 57))

/-- The `spamKeywords` list of the `_part006` scorer. -/
def spamKeywords06 : List JStr :=
  [strToJ "urgent", strToJ "money", strToJ "free", strToJ "winner",
   strToJ "prize", strToJ "click here", strToJ "buy now", strToJ "limited time",
   strToJ "act now", strToJ "special promotion", strToJ "cash", strToJ "profit",
   strToJ "make money", strToJ "work from home", strToJ "get rich",
   strToJ "viagra", strToJ "casino", strToJ "lottery", strToJ "credit card",
   strToJ "loan", strToJ "mortgage", strToJ "insurance"]

/-- `(message + ' ' + subject + ' ' + name).toLowerCase()` of the `_part006` scorer. -/
def fullText06 (d : ContactData) : JStr :=
  jsToLower (d.message ++ [32] ++ d.subject ++ [32] ++ d.name)

/-- Number of listed keywords contained in the scanned text
(`spamKeywords.filter(keyword => fullText.includes(keyword)).length`). -/
def kwCount06 (t : JStr) : Nat := spamKeywords06.countP (fun k => jsIncludes t k)

/-- Keyword component of the `_part006` scorer:
`Math.min(suspiciousKeywords.length * 2, 6)`. -/
def kwComponent06 (t : JStr) : Nat := min (kwCount06 t * 2) 6

/-- Capitalization component of the `_part006` scorer: 3 points above ratio
0.6, 1 point above 0.4 (NaN on the empty message, adding nothing). -/
def capScore06 (msg : JStr) : Nat :=
  if ratioGt (capRatioOf msg) 3 5 then 3
  else if ratioGt (capRatioOf msg) 2 5 then 1
  else 0

/-- URL component of the `_part006` scorer: `Math.min(urlCount * 3, 6)`. -/
def urlComponent06 (msg : JStr) : Nat := min (urlCount msg * 3) 6

/-- Email-pattern component of the `_part006` scorer: long local part (+1),
numeric local part (+2), double dots in the local part (+1). -/
def emailComponent06 (email : JStr) : Nat :=
  (if 30 < (localPartOf email).length then 1 else 0) +
  (if isAllDigits (localPartOf email) then 2 else 0) +
  (if jsIncludes (localPartOf email) (strToJ "..") then 1 else 0)

/-- Name-pattern component of the `_part006` scorer: very short name (+1),
numeric name (+2), name equal to the email local part (+1). -/
def nameComponent06 (name email : JStr) : Nat :=
  (if name.length < 3 then 1 else 0) +
  (if isAllDigits name then 2 else 0) +
  (if name == localPartOf email then 1 else 0)

/-- Message-structure component of the `_part006` scorer: fewer than 5 words
(+1), more than 200 words (+1). -/
def lengthComponent06 (msg : JStr) : Nat :=
  (if splitWsCount msg < 5 then 1 else 0) + (if 200 < splitWsCount msg then 1 else 0)

/-- `calculateSpamScore` of `src/unnamed/part_006` (lines 145-196): sum of the
seven factor components, capped by `Math.min(score, 10)`. -/
def calculateSpamScore_part006 (d : ContactData) : Nat :=
  min (kwComponent06 (fullText06 d) + capScore06 d.message + urlComponent06 d.message +
       emailComponent06 d.email + nameComponent06 d.name d.email +
       lengthComponent06 d.message + repRuns d.message) 10

/-- Capitalization component of the `_enhanced` scorer
(`src/src/models/Contact.js` lines 300-302): the denominator is guarded with
`Math.max(message.length, 1)`; 2 points above ratio 0.6. -/
def capScoreGuarded_enhanced (msg : JStr) : Nat :=
  if ratioGt (capRatioGuarded msg) 3 5 then 2 else 0

/-- Lowercasing after uppercasing a code unit agrees with lowercasing it directly. -/
theorem lowerChar_upperChar (n : Nat) : jsToLowerChar (jsToUpperChar n) = jsToLowerChar n := by
  unfold jsToLowerChar jsToUpperChar
  split_ifs <;> omega

/-- Lowercasing after uppercasing a string agrees with lowercasing it directly. -/
theorem jsToLower_jsToUpper (s : JStr) : jsToLower (jsToUpper s) = jsToLower s := by
  induction s with
  | nil => rfl
  | cons c rest ih =>
    show jsToLowerChar (jsToUpperChar c) :: jsToLower (jsToUpper rest) =
      jsToLowerChar c :: jsToLower rest
    rw [lowerChar_upperChar, ih]

/-- `jsToLower` distributes over concatenation. -/
theorem jsToLower_append (a b : JStr) : jsToLower (a ++ b) = jsToLower a ++ jsToLower b :=
  List.map_append _ _ _

/-- A prefix of `s` is a prefix of `s ++ u`. -/
theorem startsWith_append_of (s pat u : JStr) (h : startsWith s pat = true) :
    startsWith (s ++ u) pat = true := by
  induction pat generalizing s with
  | nil =>
    cases s <;> cases u <;> rfl
  | cons p ps ih =>
    cases s with
    | nil => simp [startsWith] at h
    | cons c s =>
      simp only [startsWith, Bool.and_eq_true] at h
      simp only [List.cons_append, startsWith, Bool.and_eq_true]
      exact ⟨h.1, ih s h.2⟩

/-- The empty pattern occurs in every string. -/
theorem jsIncludes_nil (s : JStr) : jsIncludes s [] = true := by
  cases s <;> rfl

/-- A substring of `s` is a substring of `s ++ u`. -/
theorem jsIncludes_append_of (s pat u : JStr) (h : jsIncludes s pat = true) :
    jsIncludes (s ++ u) pat = true := by
  induction s with
  | nil =>
    cases pat with
    | nil => simpa using jsIncludes_nil u
    | cons p ps => simp [jsIncludes, startsWith] at h
  | cons c rest ih =>
    simp only [jsIncludes, Bool.or_eq_true] at h
    rcases h with h | h
    · simp only [List.cons_append, jsIncludes, Bool.or_eq_true]
      exact Or.inl (startsWith_append_of _ _ _ h)
    · simp only [List.cons_append, jsIncludes, Bool.or_eq_true]
      exact Or.inr (ih h)

/-- Counting with a weaker predicate counts at most as much as with a stronger one. -/
theorem countP_le_of_imp {α : Type} (l : List α) (p q : α → Bool)
    (h : ∀ x, p x = true → q x = true) : l.countP p ≤ l.countP q := by
  induction l with
  | nil => exact Nat.le_refl _
  | cons a l ih =>
    rw [List.countP_cons, List.countP_cons]
    cases hp : p a
    · cases q a <;> simp <;> omega
    · rw [h a hp]
      simp
      omega

/-- A submission whose message consists of six URLs. -/
def sixUrlContact : ContactData :=
  ⟨strToJ "Bob", strToJ "a@b.cd", strToJ "hello",
   strToJ "http://a http://b http://c http://d http://e http://f"⟩

/-- C1 counterexample: the `_simple` variant of `calculateSpamScore`
(`src/src/models/Contact.js` lines 95-112) does not clamp its result; a
message containing six URLs scores `6 * 2 = 12`, outside `[0, 10]`. -/
theorem spec_c1_counterexample :
    calculateSpamScore_simple sixUrlContact = 12 ∧
    ¬ calculateSpamScore_simple sixUrlContact ≤ 10 := by decide

/-- C1 (amended): every `_part006` score is clamped to at most 10 (and is a
natural number, hence at least 0), and the `_simple` variant degrades
gracefully to score 0 when every field is the empty string; no variant can
fail, as all are total functions of the input record. The `_simple` variant,
however, does not clamp its result (see the counterexample). -/
theorem spec_c1_theorem :
    (∀ d : ContactData, calculateSpamScore_part006 d ≤ 10) ∧
    calculateSpamScore_simple ⟨[], [], [], []⟩ = 0 := by
  constructor
  · intro d
    exact Nat.min_le_right _ _
  · decide

/-- Uppercase every field of a record, giving a record equal to the original
up to letter case. -/
def upperData (d : ContactData) : ContactData :=
  ⟨jsToUpper d.name, jsToUpper d.email, jsToUpper d.subject, jsToUpper d.message⟩

/-- A benign lowercase submission. -/
def politeContact : ContactData :=
  ⟨strToJ "abcd", strToJ "a@b.cd", strToJ "greetings", strToJ "hello world how are you"⟩

/-- C5 counterexample: two records equal up to letter case score differently
in the `_simple` variant, because the capitalization-ratio signal
(`src/src/models/Contact.js` lines 105-106) reads the raw message: the
all-uppercase copy of a benign message gains the +2 capitalization bonus. -/
theorem spec_c5_counterexample :
    calculateSpamScore_simple (upperData politeContact) ≠
    calculateSpamScore_simple politeContact := by decide

/-- C5 (amended): keyword matching is case-insensitive — the keyword
components of the `_simple` and `_part006` scorers are unchanged when every
field is uppercased, since both scan a lowercased text — but the total score
is not case-invariant, because the capitalization-ratio signal reads the raw
message (see the counterexample). -/
theorem spec_c5_theorem : ∀ d : ContactData,
    kwCountSimple (combinedTextSimple (upperData d)) = kwCountSimple (combinedTextSimple d) ∧
    kwCount06 (fullText06 (upperData d)) = kwCount06 (fullText06 d) := by
  intro d
  have hsp : jsToLower [32] = [32] := by decide
  have h1 : combinedTextSimple (upperData d) = combinedTextSimple d := by
    unfold combinedTextSimple upperData
    simp only [jsToLower_append, jsToLower_jsToUpper]
  have h2 : fullText06 (upperData d) = fullText06 d := by
    unfold fullText06 upperData
    simp only [jsToLower_append, jsToLower_jsToUpper]
  rw [h1, h2]
  exact ⟨rfl, rfl⟩

/-- C6 counterexample: for the empty message, the unguarded
capitalization-ratio computation (`src/src/models/Contact.js` lines 105-106
and `src/unnamed/part_006` lines 166-168) evaluates `0 / 0`, which is NaN —
not a zero ratio. -/
theorem spec_c6_counterexample :
    capRatioOf [] = JRatio.nan ∧ isZeroRatio (capRatioOf []) = false := by decide

/-- C6 (amended): on the empty message the `_simple` and `_part006` variants
compute a NaN ratio, not 0; every comparison against NaN is false, so the
capitalization components contribute 0 and the returned score is still a
well-defined natural number. The `_enhanced` variant guards the denominator
with `Math.max(message.length, 1)` and computes the true zero ratio `0 / 1`. -/
theorem spec_c6_theorem : ∀ msg : JStr, msg = [] →
    capRatioOf msg = JRatio.nan ∧ capScoreSimple msg = 0 ∧ capScore06 msg = 0 ∧
    capRatioGuarded msg = JRatio.ratio 0 1 ∧ capScoreGuarded_enhanced msg = 0 := by
  intro msg h
  subst h
  decide

/-- C6 witness: the amended statement instantiated at the empty message. -/
theorem spec_c6_witness :
    capRatioOf [] = JRatio.nan ∧ capScoreSimple [] = 0 ∧ capScore06 [] = 0 ∧
    capRatioGuarded [] = JRatio.ratio 0 1 ∧ capScoreGuarded_enhanced [] = 0 :=
  spec_c6_theorem [] rfl

/-- A mostly-uppercase message already containing the keyword `free`. -/
def kwContactA : ContactData :=
  ⟨strToJ "Bob", strToJ "a@b.cd", strToJ "abcde", strToJ "FREE AA"⟩

/-- The same submission with one more occurrence of `free` inserted at the
end of the message. -/
def kwContactB : ContactData :=
  ⟨strToJ "Bob", strToJ "a@b.cd", strToJ "abcde", strToJ "FREE AA" ++ strToJ " free"⟩

/-- C7 counterexample: inserting one more occurrence of the weighted keyword
`free` into the message lowers the `_simple` score from 3 to 1: keyword
matching is presence-based (`includes`), so the duplicate adds nothing, while
the longer message drops the capitalization ratio to 1/2, losing the +2
bonus. -/
theorem spec_c7_counterexample :
    kwContactB.message = kwContactA.message ++ strToJ " free" ∧
    calculateSpamScore_simple kwContactB < calculateSpamScore_simple kwContactA := by decide

/-- C7 (amended): the keyword components themselves are monotone under
extending the scanned text at the end — appending (for instance one more
keyword occurrence) never decreases `kwCountSimple`, nor the capped
`kwComponent06` — but the total score is not monotone in keyword insertions,
because the capitalization-ratio and message-length signals can decrease
(see the counterexample). -/
theorem spec_c7_theorem : ∀ t u : JStr,
    kwCountSimple t ≤ kwCountSimple (t ++ u) ∧
    kwComponent06 t ≤ kwComponent06 (t ++ u) := by
  intro t u
  have hs : kwCountSimple t ≤ kwCountSimple (t ++ u) :=
    countP_le_of_imp simpleKeywords _ _ (fun k hk => jsIncludes_append_of t k u hk)
  have h06 : kwCount06 t ≤ kwCount06 (t ++ u) :=
    countP_le_of_imp spamKeywords06 _ _ (fun k hk => jsIncludes_append_of t k u hk)
  refine ⟨hs, ?_⟩
  unfold kwComponent06
  exact min_le_min (Nat.mul_le_mul_right 2 h06) (Nat.le_refl 6)

/-- The `submissionType` enum of the `_part006` schema. -/
inductive SubType where
  | normal : SubType
  | suspicious : SubType
  | blocked : SubType
deriving DecidableEq, BEq

/-- A persisted contact document, with the fields the limiter queries read. -/
structure DbRecord where
  email : JStr
  ipAddress : JStr
  createdAt : Int
  isSpam : Bool
  submissionType : SubType
deriving DecidableEq

/-- The state of the persistence collaborator as the limiter sees it:
the mongoose connection state, the stored documents, and whether queries
currently fail (timeouts, lost connections, ...). -/
structure Db where
  readyState : Nat
  records : List DbRecord
  failing : Bool

/-- `countDocuments(filter)`: a read-only query that either throws (when the
collaborator is failing) or returns the number of stored documents matching
the filter. -/
def countDocuments (db : Db) (p : DbRecord → Bool) : Except Unit Nat :=
  if db.failing then Except.error () else Except.ok (db.records.countP p)

/-- A persistence operation; the limiter only ever issues `countOp`, but
writes are expressible (`contact.save()` and `deleteMany` elsewhere in the
model layer), which is what makes the read-only frame property meaningful. -/
inductive DbOp where
  | countOp : (DbRecord → Bool) → DbOp
  | insertOp : DbRecord → DbOp
  | deleteOp : (DbRecord → Bool) → DbOp

/-- Effect of one operation on the stored documents: counts read, inserts
append, deletes filter. -/
def applyOp (s : List DbRecord) : DbOp → List DbRecord
  | DbOp.countOp _ => s
  | DbOp.insertOp r => s ++ [r]
  | DbOp.deleteOp p => s.filter (fun r => !p r)

/-- Effect of a sequence of operations on the stored documents. -/
def applyOps (s : List DbRecord) (ops : List DbOp) : List DbRecord :=
  ops.foldl applyOp s

/-- Email-count filter of the Contact.js variants:
`{ email: email.toLowerCase(), createdAt: { $gte: timeAgo }, isSpam: false }`. -/
def emailFilter (email : JStr) (tAgo : Int) (r : DbRecord) : Bool :=
  r.email == jsToLower email && decide (tAgo ≤ r.createdAt) && !r.isSpam

/-- IP-count filter of the Contact.js variants. -/
def ipFilter (ip : JStr) (tAgo : Int) (r : DbRecord) : Bool :=
  r.ipAddress == ip && decide (tAgo ≤ r.createdAt) && !r.isSpam

/-- Recent-spam filter of the `_enhanced` and `_part006` variants:
`{ $or: [{ email }, { ipAddress }], createdAt: { $gte: timeAgo }, isSpam: true }`. -/
def spamFilter (email ip : JStr) (tAgo : Int) (r : DbRecord) : Bool :=
  (r.email == jsToLower email || r.ipAddress == ip) && decide (tAgo ≤ r.createdAt) && r.isSpam

/-- Email-count filter of the `_part006` variant, which excludes blocked
submissions instead of spam ones: `submissionType: { $ne: 'blocked' }`. -/
def emailFilter06 (email : JStr) (tAgo : Int) (r : DbRecord) : Bool :=
  r.email == jsToLower email && decide (tAgo ≤ r.createdAt) &&
    !(r.submissionType == SubType.blocked)

/-- IP-count filter of the `_part006` variant. -/
def ipFilter06 (ip : JStr) (tAgo : Int) (r : DbRecord) : Bool :=
  r.ipAddress == ip && decide (tAgo ≤ r.createdAt) &&
    !(r.submissionType == SubType.blocked)

/-- The two read queries issued by the `_simple` limiter. -/
def limiterQueries_simple (email ip : JStr) (tAgo : Int) : List DbOp :=
  [DbOp.countOp (emailFilter email tAgo), DbOp.countOp (ipFilter ip tAgo)]

/-- The three read queries issued by the `_enhanced` limiter. -/
def limiterQueries_enhanced (email ip : JStr) (tAgo : Int) : List DbOp :=
  [DbOp.countOp (emailFilter email tAgo), DbOp.countOp (ipFilter ip tAgo),
   DbOp.countOp (spamFilter email ip tAgo)]

/-- The three read queries issued by the `_part006` limiter. -/
def limiterQueries_part006 (email ip : JStr) (tAgo : Int) : List DbOp :=
  [DbOp.countOp (emailFilter06 email tAgo), DbOp.countOp (ipFilter06 ip tAgo),
   DbOp.countOp (spamFilter email ip tAgo)]

/-- Result shape of the `_simple` limiter: `{ emailCount, ipCount, isOverLimit }`. -/
structure LimitResult where
  emailCount : Nat
  ipCount : Nat
  isOverLimit : Bool
deriving DecidableEq

/-- Result shape of the `_enhanced` and `_part006` limiters, which also
report `recentSpamCount`. -/
structure LimitResult3 where
  emailCount : Nat
  ipCount : Nat
  recentSpamCount : Nat
  isOverLimit : Bool
deriving DecidableEq

/-- Over-limit decision of the `_simple` limiter: `emailCount >= 3 || ipCount >= 5`. -/
def overLimitSimple (e i : Nat) : Bool := decide (3 ≤ e) || decide (5 ≤ i)

/-- Over-limit decision of the `_enhanced` limiter:
`(emailCount >= 3 || ipCount >= 5) || recentSpamCount > 2`. -/
def overLimitEnhanced (e i s : Nat) : Bool :=
  (decide (3 ≤ e) || decide (5 ≤ i)) || decide (2 < s)

/-- Over-limit decision of the `_part006` limiter:
`emailCount >= 3 || ipCount >= 5 || recentSpamCount >= 2`. -/
def overLimit06 (e i s : Nat) : Bool :=
  decide (3 ≤ e) || decide (5 ≤ i) || decide (2 ≤ s)

/-- `checkSubmissionLimit` of `src/src/models/Contact.js` (first variant,
lines 54-92), returning its result together with the persistence operations
it issued. Disconnected store: return zero counts, not over limit, issuing no
query. Query error: the catch block returns zero counts, not over limit
(fail open). -/
def checkSubmissionLimit_simple (db : Db) (email ip : JStr) (now window : Int) :
    LimitResult × List DbOp :=
  if db.readyState ≠ 1 then (⟨0, 0, false⟩, [])
  else
    let tAgo := now - window
    let ops := limiterQueries_simple email ip tAgo
    match countDocuments db (emailFilter email tAgo), countDocuments db (ipFilter ip tAgo) with
    | Except.ok e, Except.ok i => (⟨e, i, overLimitSimple e i⟩, ops)
    | _, _ => (⟨0, 0, false⟩, ops)

/-- `checkSubmissionLimit` of `src/src/models/Contact.js` (second variant,
lines 201-260). Same guard on the connection state; the catch block also
fails open; the recent-spam signal uses the strict threshold
`recentSpamCount > 2`. -/
def checkSubmissionLimit_enhanced (db : Db) (email ip : JStr) (now window : Int) :
    LimitResult3 × List DbOp :=
  if db.readyState ≠ 1 then (⟨0, 0, 0, false⟩, [])
  else
    let tAgo := now - window
    let ops := limiterQueries_enhanced email ip tAgo
    match countDocuments db (emailFilter email tAgo), countDocuments db (ipFilter ip tAgo),
        countDocuments db (spamFilter email ip tAgo) with
    | Except.ok e, Except.ok i, Except.ok s => (⟨e, i, s, overLimitEnhanced e i s⟩, ops)
    | _, _, _ => (⟨0, 0, 0, false⟩, ops)

/-- `checkSubmissionLimit` of `src/unnamed/part_006` (lines 93-142). No
connection-state guard; the catch block is conservative and blocks
(fail closed, `isOverLimit: true`); the recent-spam signal uses
`recentSpamCount >= 2`. -/
def checkSubmissionLimit_part006 (db : Db) (email ip : JStr) (now window : Int) :
    LimitResult3 × List DbOp :=
  let tAgo := now - window
  let ops := limiterQueries_part006 email ip tAgo
  match countDocuments db (emailFilter06 email tAgo), countDocuments db (ipFilter06 ip tAgo),
      countDocuments db (spamFilter email ip tAgo) with
  | Except.ok e, Except.ok i, Except.ok s => (⟨e, i, s, overLimit06 e i s⟩, ops)
  | _, _, _ => (⟨0, 0, 0, true⟩, ops)

/-- Unfolding of the `_part006` over-limit decision into its three disjuncts. -/
theorem overLimit06_eq_true (e i s : Nat) :
    overLimit06 e i s = true ↔ 3 ≤ e ∨ 5 ≤ i ∨ 2 ≤ s := by
  simp [overLimit06, or_assoc]

/-- Unfolding of the `_enhanced` over-limit decision into its three disjuncts. -/
theorem overLimitEnhanced_eq_true (e i s : Nat) :
    overLimitEnhanced e i s = true ↔ 3 ≤ e ∨ 5 ≤ i ∨ 2 < s := by
  simp [overLimitEnhanced, or_assoc]

/-- C2 (amended): on a connected, non-failing store, the `_part006` limiter
reports over-limit exactly when `emailCount >= 3`, `ipCount >= 5` or
`recentSpamCount >= 2`; the `_enhanced` limiter uses the strict recent-spam
threshold `recentSpamCount > 2` instead. (In particular, emailCount = 2 and
ipCount = 1 give `isOverLimit = false`, emailCount = 3 gives `true`, and
ipCount = 5 gives `true` regardless of emailCount, in both variants.) -/
theorem spec_c2_theorem : ∀ (db : Db) (email ip : JStr) (now window : Int)
    (e1 i1 s1 : Nat) (o1 : Bool) (e2 i2 s2 : Nat) (o2 : Bool),
    db.readyState = 1 → db.failing = false →
    (checkSubmissionLimit_part006 db email ip now window).1 = ⟨e1, i1, s1, o1⟩ →
    (checkSubmissionLimit_enhanced db email ip now window).1 = ⟨e2, i2, s2, o2⟩ →
    ((o1 = true ↔ 3 ≤ e1 ∨ 5 ≤ i1 ∨ 2 ≤ s1) ∧ (o2 = true ↔ 3 ≤ e2 ∨ 5 ≤ i2 ∨ 2 < s2)) := by
  intro db email ip now window e1 i1 s1 o1 e2 i2 s2 o2 hrs hf h1 h2
  unfold checkSubmissionLimit_part006 countDocuments at h1
  unfold checkSubmissionLimit_enhanced countDocuments at h2
  rw [hf] at h1 h2
  rw [hrs] at h2
  simp [LimitResult3.mk.injEq] at h1 h2
  obtain ⟨he1, hi1, hs1, ho1⟩ := h1
  obtain ⟨he2, hi2, hs2, ho2⟩ := h2
  subst he1; subst hi1; subst hs1; subst ho1
  subst he2; subst hi2; subst hs2; subst ho2
  exact ⟨overLimit06_eq_true _ _ _, overLimitEnhanced_eq_true _ _ _⟩

/-- A spam-flagged record from `a@b.cd`. -/
def spamRec1 : DbRecord := ⟨strToJ "a@b.cd", strToJ "9.9.9.9", 95, true, SubType.normal⟩

/-- A second spam-flagged record from `a@b.cd`. -/
def spamRec2 : DbRecord := ⟨strToJ "a@b.cd", strToJ "9.9.9.9", 96, true, SubType.normal⟩

/-- A connected store holding exactly two recent spam records for `a@b.cd`. -/
def dbTwoSpam : Db := ⟨1, [spamRec1, spamRec2], false⟩

/-- C2 counterexample: with two recent spam records (`recentSpamCount = 2`)
and no other submissions, the `_enhanced` limiter
(`src/src/models/Contact.js` lines 237-247) reports `isOverLimit = false`,
because its recent-spam threshold is `> 2`, not `>= 2` as claimed. -/
theorem spec_c2_counterexample :
    (checkSubmissionLimit_enhanced dbTwoSpam (strToJ "a@b.cd") (strToJ "1.1.1.1") 100 10).1 =
      ⟨0, 0, 2, false⟩ := by decide

/-- C2 witness: the amended statement instantiated on the two-spam-record
store, where the `_part006` limiter is over limit (recentSpamCount = 2)
while the `_enhanced` one is not. -/
theorem spec_c2_witness :
    ((true = true ↔ 3 ≤ 2 ∨ 5 ≤ 0 ∨ 2 ≤ 2) ∧ (false = true ↔ 3 ≤ 0 ∨ 5 ≤ 0 ∨ 2 < 2)) :=
  spec_c2_theorem dbTwoSpam (strToJ "a@b.cd") (strToJ "1.1.1.1") 100 10
    2 0 2 true 0 0 2 false rfl rfl rfl rfl

/-- C4: when the persistence queries throw, the `_part006` limiter — the
fail-closed variant — still returns a result, namely the catch-block value
with `isOverLimit = true` (`src/unnamed/part_006` lines 131-141). -/
theorem spec_c4_theorem : ∀ (db : Db) (email ip : JStr) (now window : Int),
    db.failing = true →
    (checkSubmissionLimit_part006 db email ip now window).1 = ⟨0, 0, 0, true⟩ := by
  intro db email ip now window hf
  unfold checkSubmissionLimit_part006 countDocuments
  rw [hf]
  rfl

/-- C4 witness: a failing store at concrete arguments. -/
theorem spec_c4_witness :
    (checkSubmissionLimit_part006 ⟨1, [], true⟩ (strToJ "a@b.cd") (strToJ "1.1.1.1")
      0 86400000).1 = ⟨0, 0, 0, true⟩ :=
  spec_c4_theorem ⟨1, [], true⟩ (strToJ "a@b.cd") (strToJ "1.1.1.1") 0 86400000 rfl

/-- C8: every limiter variant issues only count (read) queries, so replaying
the operations it issued against the stored documents leaves them unchanged. -/
theorem spec_c8_theorem : ∀ (db : Db) (email ip : JStr) (now window : Int),
    applyOps db.records (checkSubmissionLimit_simple db email ip now window).2 = db.records ∧
    applyOps db.records (checkSubmissionLimit_enhanced db email ip now window).2 = db.records ∧
    applyOps db.records (checkSubmissionLimit_part006 db email ip now window).2 = db.records := by
  intro db email ip now window
  rcases db with ⟨rs, recs, fl⟩
  refine ⟨?_, ?_, ?_⟩ <;>
    cases fl <;>
      simp [checkSubmissionLimit_simple, checkSubmissionLimit_enhanced,
        checkSubmissionLimit_part006, countDocuments, limiterQueries_simple,
        limiterQueries_enhanced, limiterQueries_part006, applyOps, applyOp] <;>
      split <;> rfl

/-- C10 (amended): both Contact.js variants guard on the connection state:
when `readyState != 1` they return zero counts and `isOverLimit = false`
without issuing any persistence operation. (The `_part006` variant has no
such guard — see the counterexample.) -/
theorem spec_c10_theorem : ∀ (db : Db) (email ip : JStr) (now window : Int),
    db.readyState ≠ 1 →
    checkSubmissionLimit_simple db email ip now window = (⟨0, 0, false⟩, []) ∧
    checkSubmissionLimit_enhanced db email ip now window = (⟨0, 0, 0, false⟩, []) := by
  intro db email ip now window h
  unfold checkSubmissionLimit_simple checkSubmissionLimit_enhanced
  rw [if_pos h, if_pos h]
  exact ⟨rfl, rfl⟩

/-- C10 witness: a disconnected (readyState 0) store at concrete arguments. -/
theorem spec_c10_witness :
    checkSubmissionLimit_simple ⟨0, [], false⟩ (strToJ "a@b.cd") (strToJ "1.1.1.1")
      0 86400000 = (⟨0, 0, false⟩, []) ∧
    checkSubmissionLimit_enhanced ⟨0, [], false⟩ (strToJ "a@b.cd") (strToJ "1.1.1.1")
      0 86400000 = (⟨0, 0, 0, false⟩, []) :=
  spec_c10_theorem ⟨0, [], false⟩ (strToJ "a@b.cd") (strToJ "1.1.1.1") 0 86400000 (by decide)

/-- A disconnected store (readyState 0) whose queries consequently fail. -/
def dbDisconnected : Db := ⟨0, [], true⟩

/-- C10 counterexample: the `_part006` limiter has no readyState guard: on a
disconnected store it still issues its three queries, and when they fail its
fail-closed catch block returns `isOverLimit = true`, not the claimed
`{emailCount: 0, ipCount: 0, isOverLimit: false}` with no query. -/
theorem spec_c10_counterexample :
    (checkSubmissionLimit_part006 dbDisconnected (strToJ "a@b.cd") (strToJ "1.1.1.1")
      0 86400000).1.isOverLimit = true ∧
    ((checkSubmissionLimit_part006 dbDisconnected (strToJ "a@b.cd") (strToJ "1.1.1.1")
      0 86400000).2).length = 3 :=
  ⟨rfl, rfl⟩

/-- `String.prototype.trim`: strip leading and trailing whitespace. -/
def jsTrim (s : JStr) : JStr := ((s.dropWhile jsIsSpace).reverse.dropWhile jsIsSpace).reverse

/-- Code units after the first occurrence of `sep` (empty if `sep` does not occur). -/
def afterChar (sep : Nat) : JStr → JStr
  | [] => []
  | c :: rest => if c == sep then rest else afterChar sep rest

/-- `/^[^\s@]+@[^\s@]+\.[^\s@]+$/.test(s)`: no whitespace, exactly one `@`
preceded by at least one code unit, and after the `@` a dot with at least one
code unit on each side. -/
def emailFormatOk (s : JStr) : Bool :=
  s.all (fun c => !jsIsSpace c) && (s.countP (fun c => c == 64) == 1) &&
  !(takeUntil 64 s).isEmpty && ((afterChar 64 s).drop 1).dropLast.any (fun c => c == 46)

/-- An incoming request body: the four form fields plus the hidden honeypot
field. A missing field and the empty string behave identically under every
JavaScript truthiness test the controllers perform, so both are modelled as
the empty list. -/
structure Request where
  name : JStr
  email : JStr
  subject : JStr
  message : JStr
  honeypot : JStr
deriving DecidableEq

/-- `validateContactInput(data).isValid` of the first controller variant
(`src/src/controllers/contactController.js` lines 29-61): all four required
fields non-empty after trimming, raw lengths within bounds, and the email
matching the address pattern. (The source collects an error list; `isValid`
is its emptiness, which reduces to this conjunction since a field that fails
the truthiness guard of a length/format check already failed the required
check.) -/
def validateOk (req : Request) : Bool :=
  !(jsTrim req.name).isEmpty && !(jsTrim req.email).isEmpty &&
  !(jsTrim req.subject).isEmpty && !(jsTrim req.message).isEmpty &&
  decide (req.name.length ≤ 100) && decide (req.email.length ≤ 255) &&
  decide (req.subject.length ≤ 200) && decide (req.message.length ≤ 2000) &&
  emailFormatOk req.email

/-- `validation.sanitizedData` restricted to the four scored fields:
trimmed, with the email lowercased before trimming. -/
def sanitizedData (req : Request) : ContactData :=
  ⟨jsTrim req.name, jsTrim (jsToLower req.email), jsTrim req.subject, jsTrim req.message⟩

/-- Observable side effects of a submission: invoking the spam scorer,
attempting a database save, and dispatching the notification emails. -/
inductive Effect where
  | scoreCall : Effect
  | dbWrite : Effect
  | emailSend : Effect
deriving DecidableEq

/-- The JSON body of a controller response; fields absent from a given
response are `none`. -/
structure SubmitResponse where
  status : Nat
  success : Bool
  message : JStr
  savedToDatabase : Option Bool
  emailSent : Option Bool
  isSpam : Option Bool
deriving DecidableEq

/-- Collaborator outcomes for one request: which spam scorer the loaded
Contact model provides, and whether the database connection, the save and
the email sends succeed. -/
structure Env where
  scorer : ContactData → Nat
  dbConnected : Bool
  dbSaveOk : Bool
  emailOk : Bool

/-- The spam threshold: both controllers and the `_part006` pre-save hook
compare the score against the literal 5. -/
def SPAM_THRESHOLD : Nat := 5

/-- The honeypot response body. -/
def thankYouShort : JStr := strToJ "Thank you for your message!"

/-- The main-path response body (code unit 39 is the apostrophe). -/
def thankYouLong : JStr :=
  strToJ "Thank you for your message! I" ++ [39] ++
  strToJ "ll get back to you as soon as possible."

/-- `submitContact` of `src/src/controllers/contactController.js` (first
variant, lines 63-151), returning the response together with the effects
performed: honeypot check first, then validation, then scoring on the
sanitized fields; the database save is attempted only when connected and not
spam; the emails only when not spam; save and email failures are swallowed. -/
def submitContact_v1 (env : Env) (req : Request) : SubmitResponse × List Effect :=
  if 0 < req.honeypot.length then
    (⟨200, true, thankYouShort, none, none, none⟩, [])
  else if validateOk req then
    let score := env.scorer (sanitizedData req)
    let isSpam := decide (SPAM_THRESHOLD ≤ score)
    let dbAttempt := env.dbConnected && !isSpam
    let emailAttempt := !isSpam
    (⟨200, true, thankYouLong, some (dbAttempt && env.dbSaveOk),
       some (emailAttempt && env.emailOk), some isSpam⟩,
     [Effect.scoreCall] ++ (if dbAttempt then [Effect.dbWrite] else []) ++
       (if emailAttempt then [Effect.emailSend] else []))
  else
    (⟨400, false, strToJ "Validation failed", none, none, none⟩, [])

/-- `submitContact` of the second controller variant (lines 248-329):
required-field truthiness check first, then the honeypot check; the save is
attempted whenever the database is connected (spam included); the response
carries no `emailSent` field. -/
def submitContact_v2 (env : Env) (req : Request) : SubmitResponse × List Effect :=
  if req.name.isEmpty || req.email.isEmpty || req.subject.isEmpty || req.message.isEmpty then
    (⟨400, false, strToJ "All fields are required", none, none, none⟩, [])
  else if 0 < req.honeypot.length then
    (⟨200, true, thankYouShort, none, none, none⟩, [])
  else
    let score := env.scorer ⟨req.name, req.email, req.subject, req.message⟩
    let isSpam := decide (SPAM_THRESHOLD ≤ score)
    let emailAttempt := !isSpam
    (⟨200, true, thankYouLong, some (env.dbConnected && env.dbSaveOk), none, some isSpam⟩,
     [Effect.scoreCall] ++ (if env.dbConnected then [Effect.dbWrite] else []) ++
       (if emailAttempt then [Effect.emailSend] else []))

/-- `determineSubmissionType` of `src/unnamed/part_006` (lines 199-206). -/
def determineSubmissionType (spamScore : Nat) : SubType :=
  if 8 ≤ spamScore then SubType.blocked
  else if 5 ≤ spamScore then SubType.suspicious
  else SubType.normal

/-- A contact document about to be saved; `modified` records whether any of
the four text fields is modified (always true for a newly created document). -/
structure ContactDoc where
  name : JStr
  email : JStr
  subject : JStr
  message : JStr
  spamScore : Nat
  isSpam : Bool
  submissionType : SubType
  modified : Bool
deriving DecidableEq

/-- The `pre('save')` hook of `src/unnamed/part_006` (lines 209-224): when a
text field is modified, recompute the spam score, set
`isSpam = spamScore >= 5` and derive the submission type. -/
def preSave_part006 (doc : ContactDoc) : ContactDoc :=
  if doc.modified then
    let s := calculateSpamScore_part006 ⟨doc.name, doc.email, doc.subject, doc.message⟩
    { doc with spamScore := s, isSpam := decide (SPAM_THRESHOLD ≤ s),
               submissionType := determineSubmissionType s }
  else doc

/-- C9: a request with a non-empty honeypot field gets HTTP 200 with
`success: true` and the thank-you body, with no scoring, no database write
and no email dispatch — unconditionally in the first controller variant, and
under present (truthy) required fields in the second, which validates first. -/
theorem spec_c9_theorem : ∀ (env : Env) (req : Request), 0 < req.honeypot.length →
    submitContact_v1 env req = (⟨200, true, thankYouShort, none, none, none⟩, []) ∧
    (req.name ≠ [] → req.email ≠ [] → req.subject ≠ [] → req.message ≠ [] →
      submitContact_v2 env req = (⟨200, true, thankYouShort, none, none, none⟩, [])) := by
  intro env req hp
  constructor
  · unfold submitContact_v1
    rw [if_pos hp]
  · intro h1 h2 h3 h4
    have hn1 : req.name.isEmpty = false := by rw [List.isEmpty_eq_false]; exact h1
    have hn2 : req.email.isEmpty = false := by rw [List.isEmpty_eq_false]; exact h2
    have hn3 : req.subject.isEmpty = false := by rw [List.isEmpty_eq_false]; exact h3
    have hn4 : req.message.isEmpty = false := by rw [List.isEmpty_eq_false]; exact h4
    unfold submitContact_v2
    rw [hn1, hn2, hn3, hn4]
    simp [hp]

/-- C3: the spam verdict is the threshold comparison with threshold 5: the
first controller responds with `isSpam = (score >= SPAM_THRESHOLD)` for the
score of the sanitized fields, and the `_part006` pre-save hook stores
`isSpam` true exactly when the freshly computed `spamScore` is at least
`SPAM_THRESHOLD`. -/
theorem spec_c3_theorem : ∀ (env : Env) (req : Request) (doc : ContactDoc),
    req.honeypot = [] → validateOk req = true → doc.modified = true →
    (submitContact_v1 env req).1.isSpam =
      some (decide (SPAM_THRESHOLD ≤ env.scorer (sanitizedData req))) ∧
    ((preSave_part006 doc).isSpam = true ↔ SPAM_THRESHOLD ≤ (preSave_part006 doc).spamScore) ∧
    (preSave_part006 doc).spamScore =
      calculateSpamScore_part006 ⟨doc.name, doc.email, doc.subject, doc.message⟩ := by
  intro env req doc hhp hv hm
  refine ⟨?_, ?_, ?_⟩
  · unfold submitContact_v1
    rw [hhp]
    simp [hv]
  · unfold preSave_part006
    rw [hm]
    simp
  · unfold preSave_part006
    rw [hm]
    simp

/-- An environment in which every collaborator succeeds and the loaded model
provides the `_simple` scorer. -/
def liveEnv : Env := ⟨calculateSpamScore_simple, true, true, true⟩

/-- A request with the honeypot field filled. -/
def honeypotReq : Request :=
  ⟨strToJ "Bob", strToJ "a@b.cd", strToJ "hello", strToJ "hi", strToJ "x"⟩

/-- C9 witness: the filled-honeypot request short-circuits both controller
variants. -/
theorem spec_c9_witness :
    submitContact_v1 liveEnv honeypotReq = (⟨200, true, thankYouShort, none, none, none⟩, []) ∧
    submitContact_v2 liveEnv honeypotReq = (⟨200, true, thankYouShort, none, none, none⟩, []) :=
  ⟨(spec_c9_theorem liveEnv honeypotReq (by decide)).1,
   (spec_c9_theorem liveEnv honeypotReq (by decide)).2 (by decide) (by decide) (by decide) (by decide)⟩

/-- A valid, honeypot-free request. -/
def ordinaryReq : Request :=
  ⟨strToJ "Bob", strToJ "a@b.cd", strToJ "hello there", strToJ "a perfectly ordinary message", []⟩

/-- A new (modified) document carrying the same fields. -/
def ordinaryDoc : ContactDoc :=
  ⟨strToJ "Bob", strToJ "a@b.cd", strToJ "hello there", strToJ "a perfectly ordinary message",
   0, false, SubType.normal, true⟩

/-- C3 witness: the threshold-consistency statement at a concrete valid
request and document. -/
theorem spec_c3_witness :
    (submitContact_v1 liveEnv ordinaryReq).1.isSpam =
      some (decide (SPAM_THRESHOLD ≤ liveEnv.scorer (sanitizedData ordinaryReq))) ∧
    ((preSave_part006 ordinaryDoc).isSpam = true ↔
      SPAM_THRESHOLD ≤ (preSave_part006 ordinaryDoc).spamScore) ∧
    (preSave_part006 ordinaryDoc).spamScore =
      calculateSpamScore_part006
        ⟨ordinaryDoc.name, ordinaryDoc.email, ordinaryDoc.subject, ordinaryDoc.message⟩ :=
  spec_c3_theorem liveEnv ordinaryReq ordinaryDoc rfl (by decide) rfl
